import Mathlib

/-!
Verification development for the corebank-pay-portal repository.

The repository contains two variants of the same payment service:

* `src/app/main.py` (helped by `src/app/schemas.py` and `src/app/db.py`),
  a pymysql/raw-SQL variant.  We embed it below with the suffix `V1`.
* `src/app.py`, a SQLAlchemy variant.  We embed it with the suffix `2`.

Database tables become lists of rows (Lean structures); each SQL query or
SQLAlchemy call is translated into the corresponding `List.find?` /
`List.map` operation on those lists.  Each endpoint becomes a total
function from a committed state (plus the request and the identifiers the
environment would generate, such as fresh uuids) to the committed state
after the call together with an outcome value.  An HTTP error response is
an outcome constructor; whenever the code raises before `commit`, the
returned state is the unchanged input state (the connection is rolled
back or closed without committing).  Monetary amounts are `Int`
(`BigInteger` columns).  Wall-clock timestamp columns (`created_at`,
`updated_at`) are not modelled because no claim depends on them; the
`expires_at` column of the SQLAlchemy `Paylink` model is kept because the
paylink claims mention it.
-/

/-- Row of the `account` table as read by `src/app/main.py`
(columns `id`, `account_no`, `currency`, `balance_minor`). -/
structure AccountV1 where
  id : String
  account_no : String
  currency : String
  balance_minor : Int
deriving DecidableEq

/-- Row of the `cards` table as read by `confirm_pi` in `src/app/main.py`.
The sqlite-side DDL is not part of `src/`; the column set follows the
`card` model of the SQLAlchemy variant (`src/app.py`) plus the `cvc`
column that `confirm_pi` matches on.  Note that `confirm_pi`'s lookup
query filters on `pan`, `exp_month`, `exp_year` and `cvc` only — it never
mentions the `status` column. -/
structure CardV1 where
  id : String
  account_id : String
  pan : String
  exp_month : Int
  exp_year : Int
  cvc : String
  status : String
deriving DecidableEq

/-- Row of the `payment_intents` table of `src/app/main.py`. -/
structure PaymentIntentV1 where
  id : String
  account_no : String
  amount_minor : Int
  currency : String
  status : String
  description : Option String
deriving DecidableEq

/-- Row of the `transaction_` table (the table written by `transfer` in
`src/app/main.py`). -/
structure TransferTxV1 where
  id : String
  txType : String
  currency : String
  amount_minor : Int
  from_account_id : Option String
  to_account_id : Option String
  status : String
  ref_external : Option String
  message : Option String
deriving DecidableEq

/-- Row of the `transactions` table (the table written by `confirm_pi` in
`src/app/main.py`; it references accounts by `account_no`). -/
structure CardTxV1 where
  id : String
  txType : String
  currency : String
  amount_minor : Int
  from_account_no : String
  to_account_no : String
  status : String
  message : Option String
deriving DecidableEq

/-- Row of the `paylinks` table of `src/app/main.py`. -/
structure PaylinkV1 where
  id : String
  account_no : String
  payment_intent_id : Option String
  kind : String
  slug : String
deriving DecidableEq

/-- Committed database state seen by `src/app/main.py`. -/
structure StateV1 where
  accounts : List AccountV1
  cards : List CardV1
  payment_intents : List PaymentIntentV1
  transfer_txs : List TransferTxV1
  card_txs : List CardTxV1
  paylinks : List PaylinkV1
deriving DecidableEq

/-- `TransferRequest` from `src/app/schemas.py`.  The pydantic model
declares `currency: Literal["DOP"]`, so a validated request always has
`currency = "DOP"`; `amount_minor : int` carries no positivity bound. -/
structure TransferRequest where
  from_account : String
  to_account : String
  amount_minor : Int
  currency : String
deriving DecidableEq

/-- `SELECT ... FROM account WHERE account_no = %s` + `fetchone()`. -/
def findAccountV1 (s : StateV1) (no : String) : Option AccountV1 :=
  s.accounts.find? (fun a => a.account_no == no)

/-- `UPDATE account SET balance_minor = balance_minor + delta WHERE key = v`:
the generic balance update used by both endpoints (`transfer` updates by
`id`, `confirm_pi` by `account_no`); `key` selects the column. -/
def updateBalV1 (key : AccountV1 → String) (accs : List AccountV1)
    (delta : Int) (v : String) : List AccountV1 :=
  accs.map (fun a =>
    if key a == v then { a with balance_minor := a.balance_minor + delta } else a)

/-- Outcome of `POST /transfers` (`transfer` in `src/app/main.py`).
Every raised `HTTPException` is re-wrapped by the handler's
`except Exception` clause into a 500 response whose message embeds the
original detail string; the outcome constructors record the original
error kind (`accountNotFound` = 404 account not found, `currencyMismatch`
= 422 currency mismatch, `insufficientFunds` = 422 INSUFFICIENT_FUNDS). -/
inductive TransferOutcome where
  | accountNotFound
  | currencyMismatch
  | insufficientFunds
  | posted (transfer_id : String)
deriving DecidableEq

/-- `transfer` from `src/app/main.py` (lines 122-166): fetch both account
rows, 404 if either is missing, 422 if either row's currency differs from
the request currency, 422 if the source balance is below the amount;
otherwise debit the source by `id`, credit the destination by `id`,
insert one POSTED row into `transaction_`, and commit.  On any raise the
connection is rolled back, so the committed state is unchanged.
`txId` is the fresh `uuid4` generated for the transaction row. -/
def transferRun (s : StateV1) (req : TransferRequest) (txId : String) :
    StateV1 × TransferOutcome :=
  match findAccountV1 s req.from_account, findAccountV1 s req.to_account with
  | none, _ => (s, .accountNotFound)
  | some _, none => (s, .accountNotFound)
  | some fr, some toR =>
    if fr.currency != req.currency || toR.currency != req.currency then
      (s, .currencyMismatch)
    else if fr.balance_minor < req.amount_minor then
      (s, .insufficientFunds)
    else
      ({ s with
          accounts :=
            updateBalV1 (fun a => a.id)
              (updateBalV1 (fun a => a.id) s.accounts (-req.amount_minor) fr.id)
              req.amount_minor toR.id,
          transfer_txs := s.transfer_txs ++
            [{ id := txId, txType := "TRANSFER", currency := req.currency,
               amount_minor := req.amount_minor,
               from_account_id := some fr.id, to_account_id := some toR.id,
               status := "POSTED", ref_external := none, message := none }] },
       .posted txId)

/-- `balance(A)` for the pymysql variant: the `balance_minor` of the first
`account` row whose `account_no` matches. -/
def balanceOfV1 (s : StateV1) (no : String) : Option Int :=
  (findAccountV1 s no).map (fun a => a.balance_minor)

/-- `CreatePIRequest` from `src/app/schemas.py` (defaults:
`currency = "DOP"`, `create_link = True`, `link_kind = "URL"`;
`amount_minor : int` carries no positivity bound). -/
structure CreatePIRequest where
  account_no : String
  amount_minor : Int
  currency : String := "DOP"
  description : Option String := none
  create_link : Bool := true
  link_kind : String := "URL"
deriving DecidableEq

/-- Outcome of `POST /payment-intents` in `src/app/main.py`. -/
inductive CreatePIOutcome where
  | accountNotFound
  | created (pi_id : String) (slug : Option String)
deriving DecidableEq

/-- `create_pi` from `src/app/main.py` (lines 168-205): 404 when the
destination account is absent, otherwise insert a `payment_intents` row
with status `REQUIRES_PAYMENT` and the currency taken from the request,
and — when `create_link` is set — a `paylinks` row bound to the new
intent.  `piId`, `linkId` are the fresh uuids and `slug` the fresh
`"pl-" + uuid4().hex[:8]` token generated during the call. -/
def create_pi (s : StateV1) (req : CreatePIRequest)
    (piId linkId slug : String) : StateV1 × CreatePIOutcome :=
  match findAccountV1 s req.account_no with
  | none => (s, .accountNotFound)
  | some _ =>
    let s1 := { s with
      payment_intents := s.payment_intents ++
        [{ id := piId, account_no := req.account_no,
           amount_minor := req.amount_minor, currency := req.currency,
           status := "REQUIRES_PAYMENT", description := req.description }] }
    if req.create_link then
      ({ s1 with paylinks := s1.paylinks ++
          [{ id := linkId, account_no := req.account_no,
             payment_intent_id := some piId, kind := req.link_kind,
             slug := slug }] },
       .created piId (some slug))
    else
      (s1, .created piId none)

/-- `ConfirmRequest` from `src/app/schemas.py`. -/
structure ConfirmRequest where
  card_number : String
  exp_month : Int
  exp_year : Int
  cvc : String
deriving DecidableEq

/-- Outcome of `POST /payment-intents/{pi_id}/confirm` in
`src/app/main.py` (and, reused below, of the SQLAlchemy variant):
`alreadyTerminal` is the early `return {"status": ...}` branch,
`cardDeclined` and `insufficientFunds` are the committed-FAILED 422
branches, `crash` marks a path where the Python code would raise an
uncaught exception before committing. -/
inductive ConfirmOutcome where
  | piNotFound
  | alreadyTerminal (status : String)
  | cardDeclined
  | insufficientFunds
  | crash
  | captured (transaction_id : String)
deriving DecidableEq

/-- The card lookup of `confirm_pi`:
`SELECT c.*, a.account_no AS src_account_no FROM cards c JOIN accounts a
ON a.id = c.account_id WHERE c.pan=? AND c.exp_month=? AND c.exp_year=?
AND c.cvc=?` + `fetchone()` — the first card row matching pan, expiry and
cvc that joins to an existing account, together with that account.  The
query has no condition on `c.status`. -/
def findCardJoinedV1 (s : StateV1) (req : ConfirmRequest) :
    Option (CardV1 × AccountV1) :=
  s.cards.findSome? (fun c =>
    if c.pan == req.card_number && c.exp_month == req.exp_month &&
        c.exp_year == req.exp_year && c.cvc == req.cvc then
      (s.accounts.find? (fun a => a.id == c.account_id)).map (fun a => (c, a))
    else none)

/-- `UPDATE payment_intents SET status=? WHERE id=?`. -/
def setPIStatusV1 (pis : List PaymentIntentV1) (piId st : String) :
    List PaymentIntentV1 :=
  pis.map (fun p => if p.id == piId then { p with status := st } else p)

/-- `confirm_pi` from `src/app/main.py` (lines 215-265): 404 when the
intent is absent; early return of the stored status when it is
`"CAPTURED"` or `"CANCELED"` (note: `"FAILED"` is NOT in this tuple);
card lookup ignoring card status; on no match set the intent to FAILED,
commit, 422 card declined; re-read the source balance by `account_no`
(the joined account guarantees the row exists; the `none` branch would be
a `NoneType` crash and is unreachable); on insufficient balance set the
intent to FAILED, commit, 422; otherwise debit the card's account and
credit the intent's account by `account_no`, insert one POSTED
`CARD_PAYMENT` row into `transactions` carrying the intent's currency,
set the intent to CAPTURED and commit. -/
def confirm_pi (s : StateV1) (piId : String) (req : ConfirmRequest)
    (txId : String) : StateV1 × ConfirmOutcome :=
  match s.payment_intents.find? (fun p => p.id == piId) with
  | none => (s, .piNotFound)
  | some pi =>
    if pi.status == "CAPTURED" || pi.status == "CANCELED" then
      (s, .alreadyTerminal pi.status)
    else
      match findCardJoinedV1 s req with
      | none =>
        ({ s with payment_intents := setPIStatusV1 s.payment_intents piId "FAILED" },
         .cardDeclined)
      | some (_, acc) =>
        let amount := pi.amount_minor
        let src := acc.account_no
        let dst := pi.account_no
        match s.accounts.find? (fun a => a.account_no == src) with
        | none => (s, .crash)
        | some balRow =>
          if balRow.balance_minor < amount then
            ({ s with payment_intents := setPIStatusV1 s.payment_intents piId "FAILED" },
             .insufficientFunds)
          else
            ({ s with
                accounts :=
                  updateBalV1 (fun a => a.account_no)
                    (updateBalV1 (fun a => a.account_no) s.accounts (-amount) src)
                    amount dst,
                card_txs := s.card_txs ++
                  [{ id := txId, txType := "CARD_PAYMENT", currency := pi.currency,
                     amount_minor := amount, from_account_no := src,
                     to_account_no := dst, status := "POSTED", message := none }],
                payment_intents := setPIStatusV1 s.payment_intents piId "CAPTURED" },
             .captured txId)

/-- `QRRequest` from `src/app/schemas.py`. -/
structure QRRequest where
  account_no : String
  method : String := "URL"
  payment_intent_id : Option String := none
deriving DecidableEq

/-- `create_qr` from `src/app/main.py` (lines 267-287): unconditionally
insert a `paylinks` row (the account is not validated) and commit,
returning the fresh slug. -/
def create_qr (s : StateV1) (req : QRRequest) (linkId slug : String) :
    StateV1 × String :=
  ({ s with paylinks := s.paylinks ++
      [{ id := linkId, account_no := req.account_no,
         payment_intent_id := req.payment_intent_id, kind := req.method,
         slug := slug }] },
   slug)

/-- Outcome of `POST /demo/confirm/{slug}` in `src/app/main.py`. -/
inductive DemoConfirmOutcome where
  | linkWithoutIntent
  | confirmed (out : ConfirmOutcome)
deriving DecidableEq

/-- `demo_confirm` from `src/app/main.py` (lines 309-319): look the slug
up in `paylinks`; 404 when the row is absent or carries no
`payment_intent_id`; otherwise delegate to `confirm_pi` on the bound
intent.  The slug row is not modified, marked, or expired. -/
def demo_confirm (s : StateV1) (slug : String) (req : ConfirmRequest)
    (txId : String) : StateV1 × DemoConfirmOutcome :=
  match s.paylinks.find? (fun l => l.slug == slug) with
  | none => (s, .linkWithoutIntent)
  | some link =>
    match link.payment_intent_id with
    | none => (s, .linkWithoutIntent)
    | some piId =>
      let r := confirm_pi s piId req txId
      (r.1, .confirmed r.2)

/-- One call to a state-mutating core operation of `src/app/main.py`,
with the environment-supplied fresh identifiers baked in. -/
inductive OpV1 where
  | transferOp (req : TransferRequest) (txId : String)
  | createPIOp (req : CreatePIRequest) (piId linkId slug : String)
  | confirmOp (piId : String) (req : ConfirmRequest) (txId : String)
  | createQROp (req : QRRequest) (linkId slug : String)
  | demoConfirmOp (slug : String) (req : ConfirmRequest) (txId : String)
deriving DecidableEq

/-- The committed state after one call (whatever the outcome). -/
def applyOpV1 (s : StateV1) : OpV1 → StateV1
  | .transferOp req txId => (transferRun s req txId).1
  | .createPIOp req piId linkId slug => (create_pi s req piId linkId slug).1
  | .confirmOp piId req txId => (confirm_pi s piId req txId).1
  | .createQROp req linkId slug => (create_qr s req linkId slug).1
  | .demoConfirmOp slug req txId => (demo_confirm s slug req txId).1

/-- The committed state after a sequence of calls. -/
def runOpsV1 (s : StateV1) : List OpV1 → StateV1
  | [] => s
  | op :: rest => runOpsV1 (applyOpV1 s op) rest

/-- Request amounts are positive (`True` for the operations that carry no
request amount). -/
def opAmountPos : OpV1 → Prop
  | .transferOp req _ => 0 < req.amount_minor
  | .createPIOp req _ _ _ => 0 < req.amount_minor
  | _ => True

/-- Well-formed committed state: the database's `PRIMARY KEY`/`UNIQUE`
constraints on accounts (`id` primary key, `account_no` unique), all
balances non-negative, and all stored intent amounts positive. -/
def InvV1 (s : StateV1) : Prop :=
  (s.accounts.map (fun a => a.id)).Nodup ∧
  (s.accounts.map (fun a => a.account_no)).Nodup ∧
  (∀ a ∈ s.accounts, 0 ≤ a.balance_minor) ∧
  (∀ p ∈ s.payment_intents, 0 < p.amount_minor)

instance (s : StateV1) : Decidable (InvV1 s) := by
  unfold InvV1
  infer_instance

/-- Row of the `account` table (`Account` model in `src/app.py`). -/
structure Account2 where
  id : String
  party_id : String
  account_no : String
  currency : String
  status : String
  balance_minor : Int
deriving DecidableEq

/-- Row of the `card` table (`Card` model in `src/app.py`). -/
structure Card2 where
  id : String
  party_id : String
  account_id : String
  brand : String
  pan : String
  pan_last4 : String
  exp_month : Int
  exp_year : Int
  status : String
deriving DecidableEq

/-- Row of the `payment_intent` table (`PaymentIntent` model in
`src/app.py`). -/
structure PaymentIntent2 where
  id : String
  account_id : String
  amount_minor : Int
  currency : String
  status : String
  description : Option String
deriving DecidableEq

/-- Row of the `transaction_` table (`Transaction` model in
`src/app.py`). -/
structure Transaction2 where
  id : String
  txType : String
  currency : String
  amount_minor : Int
  from_account_id : Option String
  to_account_id : Option String
  status : String
  ref_external : Option String
  message : Option String
deriving DecidableEq

/-- Row of the `paylink` table (`Paylink` model in `src/app.py`).
`expires_at` is the nullable `DateTime` column, modelled as an integer
timestamp. -/
structure Paylink2 where
  id : String
  account_id : String
  payment_intent_id : Option String
  kind : String
  slug : String
  expires_at : Option Int
deriving DecidableEq

/-- Committed database state seen by `src/app.py`. -/
structure State2 where
  accounts : List Account2
  cards : List Card2
  payment_intents : List PaymentIntent2
  transactions : List Transaction2
  paylinks : List Paylink2
deriving DecidableEq

/-- `PaymentIntentCreate` from `src/app.py` (lines 107-110): the request
schema has `account_no`, `amount_minor` (pydantic `Field(gt=0)`) and
`description` — it has NO currency field, so the caller cannot choose the
intent currency. -/
structure PaymentIntentCreate where
  account_no : String
  amount_minor : Int
  description : Option String
deriving DecidableEq

/-- Outcome of `POST /payment-intents` in `src/app.py`. -/
inductive CreatePI2Outcome where
  | accountNotFound
  | created (pi_id : String)
deriving DecidableEq

/-- `db.query(Account).filter_by(account_no=...).first()`. -/
def findAccountByNo2 (s : State2) (no : String) : Option Account2 :=
  s.accounts.find? (fun a => a.account_no == no)

/-- `db.query(Account).get(account_id)` — primary-key lookup. -/
def findAccountById2 (s : State2) (i : String) : Option Account2 :=
  s.accounts.find? (fun a => a.id == i)

/-- `create_payment_intent` from `src/app.py` (lines 154-169): 404 when
the account is absent; otherwise insert a `payment_intent` row whose
`currency` is copied from the found account (`currency = acct.currency`),
with status `REQUIRES_PAYMENT`, and commit.  `piId` is the fresh uuid. -/
def create_payment_intent (s : State2) (data : PaymentIntentCreate)
    (piId : String) : State2 × CreatePI2Outcome :=
  match findAccountByNo2 s data.account_no with
  | none => (s, .accountNotFound)
  | some acct =>
    ({ s with payment_intents := s.payment_intents ++
        [{ id := piId, account_id := acct.id,
           amount_minor := data.amount_minor, currency := acct.currency,
           status := "REQUIRES_PAYMENT", description := data.description }] },
     .created piId)

/-- `ConfirmPayment` from `src/app.py` (lines 116-119): no cvc field. -/
structure ConfirmPayment where
  card_number : String
  exp_month : Int
  exp_year : Int
deriving DecidableEq

/-- `UPDATE`-through-ORM of an intent status (`pi.status = st` followed by
`db.commit()`). -/
def setPIStatus2 (pis : List PaymentIntent2) (piId st : String) :
    List PaymentIntent2 :=
  pis.map (fun p => if p.id == piId then { p with status := st } else p)

/-- ORM balance update: `account.balance_minor += delta` for the account
with the given primary key, committed with the session. -/
def updateBal2 (accs : List Account2) (delta : Int) (i : String) :
    List Account2 :=
  accs.map (fun a =>
    if a.id == i then { a with balance_minor := a.balance_minor + delta } else a)

/-- `confirm_payment` from `src/app.py` (lines 172-215): 404 when the
intent is absent; early return of the stored status when it is not
`"REQUIRES_PAYMENT"`; card lookup filtered on pan, expiry AND
`status="ACTIVE"`; on no match set the intent to FAILED, commit, 422
Tarjeta declinada; fetch funding and destination accounts by primary key
(a missing row would make the Python raise on a `None` attribute before
any commit — the `crash` outcome with the state unchanged); on
insufficient funding balance set the intent to FAILED, commit, 422;
otherwise debit the funding account, credit the destination account,
append one POSTED `CARD_PAYMENT` transaction carrying the INTENT's
currency, set the intent to CAPTURED and commit.  No step compares the
funding account's currency with the intent's currency. -/
def confirm_payment (s : State2) (piId : String) (data : ConfirmPayment)
    (txId : String) : State2 × ConfirmOutcome :=
  match s.payment_intents.find? (fun p => p.id == piId) with
  | none => (s, .piNotFound)
  | some pi =>
    if pi.status != "REQUIRES_PAYMENT" then (s, .alreadyTerminal pi.status)
    else
      match s.cards.find? (fun c =>
          c.pan == data.card_number && c.exp_month == data.exp_month &&
          c.exp_year == data.exp_year && c.status == "ACTIVE") with
      | none =>
        ({ s with payment_intents := setPIStatus2 s.payment_intents piId "FAILED" },
         .cardDeclined)
      | some card =>
        match findAccountById2 s card.account_id with
        | none => (s, .crash)
        | some fromA =>
          if fromA.balance_minor < pi.amount_minor then
            ({ s with payment_intents := setPIStatus2 s.payment_intents piId "FAILED" },
             .insufficientFunds)
          else
            match findAccountById2 s pi.account_id with
            | none => (s, .crash)
            | some toA =>
              ({ s with
                  accounts :=
                    updateBal2 (updateBal2 s.accounts (-pi.amount_minor) card.account_id)
                      pi.amount_minor pi.account_id,
                  transactions := s.transactions ++
                    [{ id := txId, txType := "CARD_PAYMENT", currency := pi.currency,
                       amount_minor := pi.amount_minor,
                       from_account_id := some fromA.id,
                       to_account_id := some toA.id,
                       status := "POSTED", ref_external := none, message := none }],
                  payment_intents := setPIStatus2 s.payment_intents piId "CAPTURED" },
               .captured txId)

/-- Outcome of `POST /accounts/{account_no}/payment-link` in
`src/app.py`. -/
inductive CreateLinkOutcome where
  | accountNotFound
  | created (slug : String)
deriving DecidableEq

/-- `create_payment_link` from `src/app.py` (lines 224-252): 404 when the
account is absent; otherwise insert a `paylink` row with kind `"URL"`, no
bound intent, and — the model's `expires_at` column not being assigned —
a NULL expiry, then commit.  `slug` is the fresh
`"pl-" + uuid4().hex[:8]` token, `linkId` the fresh uuid. -/
def create_payment_link (s : State2) (account_no : String)
    (linkId slug : String) : State2 × CreateLinkOutcome :=
  match findAccountByNo2 s account_no with
  | none => (s, .accountNotFound)
  | some acct =>
    ({ s with paylinks := s.paylinks ++
        [{ id := linkId, account_id := acct.id, payment_intent_id := none,
           kind := "URL", slug := slug, expires_at := none }] },
     .created slug)

/-- Outcome of `GET /link-de-pago?code=...` in `src/app.py`. -/
inductive ResolveOutcome where
  | linkInvalid
  | accountNotFound
  | payable (link : Paylink2) (acct : Account2)
deriving DecidableEq

/-- `link_de_pago` from `src/app.py` (lines 255-353): look the slug up in
`paylink`; 404 "Link de pago no válido" when absent; then fetch the bound
account (404 when absent) and render the payable page for it.  The
function reads neither the `expires_at` column nor any used/consumed
marker (the model has none), and it performs no write. -/
def link_de_pago (s : State2) (code : String) : ResolveOutcome :=
  match s.paylinks.find? (fun l => l.slug == code) with
  | none => .linkInvalid
  | some link =>
    match findAccountById2 s link.account_id with
    | none => .accountNotFound
    | some acct => .payable link acct

/-- The sixteen characters that can occur in `uuid4().hex`: the
lowercase digits of base 16. -/
def hexChars : List Char :=
  (List.range 16).map Nat.digitChar

/-- Membership in `hexChars`. -/
def isHexChar (c : Char) : Bool :=
  hexChars.contains c

/-- The slug generator shared by `create_payment_link` (`src/app.py` line
235), `create_pi` (`src/app/main.py` line 186) and `create_qr`
(`src/app/main.py` line 269): `"pl-" + uuid4().hex[:8]`, applied to the
32-character hex expansion of the generated uuid. -/
def mkSlug (uuidHex : List Char) : String :=
  "pl-" ++ String.mk (uuidHex.take 8)

/-- URL-safe characters in the RFC 3986 unreserved set plus nothing else
(letters, digits, `-`, `_`, `.`, `~`). -/
def urlSafeChar (c : Char) : Bool :=
  c.isAlphanum || c == '-' || c == '_' || c == '.' || c == '~'

/-- The hex digit with a given value. -/
def hexDigit (n : Fin 16) : Char :=
  hexChars.getD n.val '0'

/-- The value of a hex digit. -/
def hexVal (c : Char) : Fin 16 :=
  ⟨(hexChars.indexOf c) % 16, Nat.mod_lt _ (by decide)⟩

/-- The slug determined by a vector of eight hex-digit values: every slug
the generator can emit is of this shape.  A type of eight 16-valued
coordinates has `16 ^ 8 = 2 ^ 32` elements, which bounds the token
space. -/
def slugOfVec (v : Fin 8 → Fin 16) : String :=
  "pl-" ++ String.mk (List.ofFn (fun i => hexDigit (v i)))

def c4accA : AccountV1 :=
  { id := "a1", account_no := "ACC-A", currency := "USD", balance_minor := 100 }

def c4accB : AccountV1 :=
  { id := "a2", account_no := "ACC-B", currency := "USD", balance_minor := 0 }

def c4state : StateV1 :=
  { accounts := [c4accA, c4accB], cards := [], payment_intents := [],
    transfer_txs := [], card_txs := [], paylinks := [] }

def c4req : TransferRequest :=
  { from_account := "ACC-A", to_account := "ACC-B", amount_minor := 50,
    currency := "DOP" }

def w4accA : AccountV1 :=
  { id := "a1", account_no := "ACC-A", currency := "DOP", balance_minor := 120 }

def w4accB : AccountV1 :=
  { id := "a2", account_no := "ACC-B", currency := "DOP", balance_minor := 5 }

def w4state : StateV1 :=
  { accounts := [w4accA, w4accB], cards := [], payment_intents := [],
    transfer_txs := [], card_txs := [], paylinks := [] }

def w4req : TransferRequest :=
  { from_account := "ACC-A", to_account := "ACC-B", amount_minor := 50,
    currency := "DOP" }

def c5accA : AccountV1 :=
  { id := "a1", account_no := "ACC-A", currency := "USD", balance_minor := 10 }

def c5accB : AccountV1 :=
  { id := "a2", account_no := "ACC-B", currency := "USD", balance_minor := 0 }

def c5state : StateV1 :=
  { accounts := [c5accA, c5accB], cards := [], payment_intents := [],
    transfer_txs := [], card_txs := [], paylinks := [] }

def c5req : TransferRequest :=
  { from_account := "ACC-A", to_account := "ACC-B", amount_minor := 50,
    currency := "DOP" }

def w5accA : AccountV1 :=
  { id := "a1", account_no := "ACC-A", currency := "DOP", balance_minor := 10 }

def w5accB : AccountV1 :=
  { id := "a2", account_no := "ACC-B", currency := "DOP", balance_minor := 0 }

def w5state : StateV1 :=
  { accounts := [w5accA, w5accB], cards := [], payment_intents := [],
    transfer_txs := [], card_txs := [], paylinks := [] }

def w5req : TransferRequest :=
  { from_account := "ACC-A", to_account := "ACC-B", amount_minor := 50,
    currency := "DOP" }

def c7accA : AccountV1 :=
  { id := "a1", account_no := "ACC-A", currency := "DOP", balance_minor := 100 }

def c7accB : AccountV1 :=
  { id := "a2", account_no := "ACC-B", currency := "DOP", balance_minor := 0 }

def c7state : StateV1 :=
  { accounts := [c7accA, c7accB], cards := [], payment_intents := [],
    transfer_txs := [], card_txs := [], paylinks := [] }

def c7selfReq : TransferRequest :=
  { from_account := "ACC-A", to_account := "ACC-A", amount_minor := 50,
    currency := "DOP" }

def c7negReq : TransferRequest :=
  { from_account := "ACC-A", to_account := "ACC-B", amount_minor := -5,
    currency := "DOP" }

def c1accS : AccountV1 :=
  { id := "a1", account_no := "ACC-S", currency := "DOP", balance_minor := 100 }

def c1accD : AccountV1 :=
  { id := "a2", account_no := "ACC-D", currency := "DOP", balance_minor := 0 }

def c1card : CardV1 :=
  { id := "card1", account_id := "a1", pan := "4111111111111111",
    exp_month := 12, exp_year := 2030, cvc := "123", status := "ACTIVE" }

def c1intent : PaymentIntentV1 :=
  { id := "pi1", account_no := "ACC-D", amount_minor := 30,
    currency := "DOP", status := "FAILED", description := none }

def c1state : StateV1 :=
  { accounts := [c1accS, c1accD], cards := [c1card],
    payment_intents := [c1intent], transfer_txs := [], card_txs := [],
    paylinks := [] }

def c1req : ConfirmRequest :=
  { card_number := "4111111111111111", exp_month := 12, exp_year := 2030,
    cvc := "123" }

def c6card : CardV1 :=
  { id := "card1", account_id := "a1", pan := "4111111111111111",
    exp_month := 12, exp_year := 2030, cvc := "123", status := "BLOCKED" }

def c6intent : PaymentIntentV1 :=
  { id := "pi1", account_no := "ACC-D", amount_minor := 30,
    currency := "DOP", status := "REQUIRES_PAYMENT", description := none }

def c6state : StateV1 :=
  { accounts :=
      [{ id := "a1", account_no := "ACC-S", currency := "DOP", balance_minor := 100 },
       { id := "a2", account_no := "ACC-D", currency := "DOP", balance_minor := 0 }],
    cards := [c6card], payment_intents := [c6intent], transfer_txs := [],
    card_txs := [], paylinks := [] }

def c6req : ConfirmRequest :=
  { card_number := "4111111111111111", exp_month := 12, exp_year := 2030,
    cvc := "123" }

def w6intent : PaymentIntentV1 :=
  { id := "pi1", account_no := "ACC-D", amount_minor := 30,
    currency := "DOP", status := "REQUIRES_PAYMENT", description := none }

def w6state : StateV1 :=
  { accounts :=
      [{ id := "a1", account_no := "ACC-S", currency := "DOP", balance_minor := 100 }],
    cards := [], payment_intents := [w6intent], transfer_txs := [],
    card_txs := [], paylinks := [] }

def w6req : ConfirmRequest :=
  { card_number := "4000000000000002", exp_month := 1, exp_year := 2026,
    cvc := "999" }

def w6intent2 : PaymentIntent2 :=
  { id := "pi1", account_id := "a1", amount_minor := 30,
    currency := "DOP", status := "REQUIRES_PAYMENT", description := none }

def w6state2 : State2 :=
  { accounts :=
      [{ id := "a1", party_id := "p1", account_no := "ACC-S", currency := "DOP",
         status := "ACTIVE", balance_minor := 100 }],
    cards := [], payment_intents := [w6intent2], transactions := [],
    paylinks := [] }

def w6data2 : ConfirmPayment :=
  { card_number := "4000000000000002", exp_month := 1, exp_year := 2026 }

def balanceOfById2 (s : State2) (i : String) : Option Int :=
  (findAccountById2 s i).map (fun a => a.balance_minor)

def w10fromA2 : Account2 :=
  { id := "a1", party_id := "p1", account_no := "ACC-S", currency := "USD",
    status := "ACTIVE", balance_minor := 100 }

def w10toA2 : Account2 :=
  { id := "a2", party_id := "p1", account_no := "ACC-D", currency := "DOP",
    status := "ACTIVE", balance_minor := 0 }

def w10card2 : Card2 :=
  { id := "card1", party_id := "p1", account_id := "a1", brand := "VISA",
    pan := "4111111111111111", pan_last4 := "1111", exp_month := 12,
    exp_year := 2030, status := "ACTIVE" }

def w10intent2 : PaymentIntent2 :=
  { id := "pi1", account_id := "a2", amount_minor := 30, currency := "DOP",
    status := "REQUIRES_PAYMENT", description := none }

def w10state2 : State2 :=
  { accounts := [w10fromA2, w10toA2], cards := [w10card2],
    payment_intents := [w10intent2], transactions := [], paylinks := [] }

def w10data2 : ConfirmPayment :=
  { card_number := "4111111111111111", exp_month := 12, exp_year := 2030 }

def w10accS : AccountV1 :=
  { id := "a1", account_no := "ACC-S", currency := "USD", balance_minor := 100 }

def w10accD : AccountV1 :=
  { id := "a2", account_no := "ACC-D", currency := "DOP", balance_minor := 0 }

def w10cardV1 : CardV1 :=
  { id := "card1", account_id := "a1", pan := "4111111111111111",
    exp_month := 12, exp_year := 2030, cvc := "123", status := "ACTIVE" }

def w10intentV1 : PaymentIntentV1 :=
  { id := "pi1", account_no := "ACC-D", amount_minor := 30, currency := "DOP",
    status := "REQUIRES_PAYMENT", description := none }

def w10stateV1 : StateV1 :=
  { accounts := [w10accS, w10accD], cards := [w10cardV1],
    payment_intents := [w10intentV1], transfer_txs := [], card_txs := [],
    paylinks := [] }

def w10reqV1 : ConfirmRequest :=
  { card_number := "4111111111111111", exp_month := 12, exp_year := 2030,
    cvc := "123" }

def w9acct : Account2 :=
  { id := "a1", party_id := "p1", account_no := "ACC-A", currency := "DOP",
    status := "ACTIVE", balance_minor := 0 }

def w9state : State2 :=
  { accounts := [w9acct], cards := [], payment_intents := [],
    transactions := [], paylinks := [] }

def w9data : PaymentIntentCreate :=
  { account_no := "ACC-A", amount_minor := 500, description := none }

def c2acct : Account2 :=
  { id := "a1", party_id := "p1", account_no := "ACC-A", currency := "DOP",
    status := "ACTIVE", balance_minor := 0 }

def c2link : Paylink2 :=
  { id := "l1", account_id := "a1", payment_intent_id := none, kind := "URL",
    slug := "pl-abc12345", expires_at := some 0 }

def c2state : State2 :=
  { accounts := [c2acct], cards := [], payment_intents := [],
    transactions := [], paylinks := [c2link] }

def c8hex1 : List Char :=
  List.replicate 8 'a' ++ List.replicate 24 'b'

def c8hex2 : List Char :=
  List.replicate 8 'a' ++ List.replicate 24 'c'

instance (op : OpV1) : Decidable (opAmountPos op) := by
  cases op <;> (unfold opAmountPos; infer_instance)

def c3state : StateV1 :=
  { accounts :=
      [{ id := "a1", account_no := "ACC-A", currency := "DOP", balance_minor := 0 },
       { id := "a2", account_no := "ACC-B", currency := "DOP", balance_minor := 0 }],
    cards := [], payment_intents := [], transfer_txs := [], card_txs := [],
    paylinks := [] }

def c3req : TransferRequest :=
  { from_account := "ACC-A", to_account := "ACC-B", amount_minor := -100,
    currency := "DOP" }

def w3state : StateV1 :=
  { accounts :=
      [{ id := "a1", account_no := "ACC-A", currency := "DOP", balance_minor := 100 },
       { id := "a2", account_no := "ACC-B", currency := "DOP", balance_minor := 0 }],
    cards :=
      [{ id := "card1", account_id := "a1", pan := "4111111111111111",
         exp_month := 12, exp_year := 2030, cvc := "123", status := "ACTIVE" }],
    payment_intents :=
      [{ id := "pi1", account_no := "ACC-B", amount_minor := 40,
         currency := "DOP", status := "REQUIRES_PAYMENT", description := none }],
    transfer_txs := [], card_txs := [], paylinks := [] }

def w3ops : List OpV1 :=
  [OpV1.transferOp
     { from_account := "ACC-A", to_account := "ACC-B", amount_minor := 30,
       currency := "DOP" } "t1",
   OpV1.confirmOp "pi1"
     { card_number := "4111111111111111", exp_month := 12, exp_year := 2030,
       cvc := "123" } "t2",
   OpV1.createQROp
     { account_no := "ACC-B", method := "URL", payment_intent_id := none }
     "l1" "pl-11112222"]

/-- `find?` commutes with mapping a function that does not change the
predicate's verdict. -/
theorem find?_map_of_pres {α : Type} (f : α → α) (p : α → Bool) (l : List α)
    (hp : ∀ a, p (f a) = p a) :
    (l.map f).find? p = (l.find? p).map f := by
  rw [List.find?_map]
  have hcomp : p ∘ f = p := funext hp
  rw [hcomp]

/-- With pairwise-distinct keys, `find?` by the key of a member returns
exactly that member. -/
theorem find?_key_self {α : Type} (k : α → String) (l : List α) (a : α)
    (hnd : (l.map k).Nodup) (ha : a ∈ l) :
    l.find? (fun x => k x == k a) = some a := by
  induction l with
  | nil => cases ha
  | cons b t ih =>
    rw [List.map_cons, List.nodup_cons] at hnd
    by_cases hb : (k b == k a) = true
    · have hkeq : k b = k a := eq_of_beq hb
      have hab : a = b := by
        rcases List.mem_cons.mp ha with h | h
        · exact h
        · exact absurd (hkeq ▸ List.mem_map_of_mem k h) hnd.1
      have hpos := List.find?_cons_of_pos (p := fun x => k x == k a) t hb
      rw [hpos, hab]
    · have hat : a ∈ t := by
        rcases List.mem_cons.mp ha with h | h
        · subst h
          simp at hb
        · exact h
      have hneg := List.find?_cons_of_neg (p := fun x => k x == k a) t (by simpa using hb)
      rw [hneg]
      exact ih hnd.2 hat

/-- Mapping a key that ignores the balance over a balance update gives
the original keys back. -/
theorem map_key_updateBalV1 (k k2 : AccountV1 → String) (accs : List AccountV1)
    (d : Int) (v : String)
    (hk2 : ∀ (a : AccountV1) (b : Int), k2 { a with balance_minor := b } = k2 a) :
    (updateBalV1 k accs d v).map k2 = accs.map k2 := by
  unfold updateBalV1
  rw [List.map_map]
  apply List.map_congr_left
  intro a _
  by_cases h1 : (k a == v) = true
  · show k2 (if k a == v then _ else _) = k2 a
    rw [if_pos h1, hk2]
  · show k2 (if k a == v then _ else _) = k2 a
    rw [if_neg h1]

/-- Reading an account by `account_no` after a balance update. -/
theorem findAccountV1_updateBal (k : AccountV1 → String) (accs : List AccountV1)
    (d : Int) (v no : String) :
    (updateBalV1 k accs d v).find? (fun a => a.account_no == no)
      = (accs.find? (fun a => a.account_no == no)).map
          (fun a => if k a == v then { a with balance_minor := a.balance_minor + d } else a) := by
  unfold updateBalV1
  apply find?_map_of_pres
  intro a
  by_cases h1 : (k a == v) = true <;> simp [h1]

/-- Reading an account by `id` after a balance update (the key functions
used in the file never read the balance, so by-`id` reads also commute). -/
theorem findAccountV1_updateBal_id (k : AccountV1 → String) (accs : List AccountV1)
    (d : Int) (v i : String) :
    (updateBalV1 k accs d v).find? (fun a => a.id == i)
      = (accs.find? (fun a => a.id == i)).map
          (fun a => if k a == v then { a with balance_minor := a.balance_minor + d } else a) := by
  unfold updateBalV1
  apply find?_map_of_pres
  intro a
  by_cases h1 : (k a == v) = true <;> simp [h1]

/-- Every balance in the result of a debit-then-credit pair of updates is
non-negative, provided: the keys are pairwise distinct and ignore the
balance; the debited row is a member whose balance covers the amount; the
amount is non-negative; and every input balance is non-negative. -/
theorem updateBal_twice_nonneg (k : AccountV1 → String) (accs : List AccountV1)
    (amt : Int) (fr : AccountV1) (tv : String)
    (hk : ∀ (a : AccountV1) (b : Int), k { a with balance_minor := b } = k a)
    (hnd : (accs.map k).Nodup) (hfr : fr ∈ accs) (hbal : amt ≤ fr.balance_minor)
    (hpos : 0 ≤ amt) (hnn : ∀ a ∈ accs, 0 ≤ a.balance_minor) :
    ∀ x ∈ updateBalV1 k (updateBalV1 k accs (-amt) (k fr)) amt tv,
      0 ≤ x.balance_minor := by
  intro x hx
  unfold updateBalV1 at hx
  rw [List.map_map] at hx
  obtain ⟨a, ha, rfl⟩ := List.mem_map.mp hx
  simp only [Function.comp]
  by_cases h1 : (k a == k fr) = true
  · rw [if_pos h1, hk]
    by_cases h2 : (k a == tv) = true
    · rw [if_pos h2]
      have h3 := hnn a ha
      show 0 ≤ a.balance_minor + -amt + amt
      omega
    · rw [if_neg h2]
      have haf : a = fr :=
        @List.inj_on_of_nodup_map _ _ _ _ hnd a ha fr hfr (eq_of_beq h1)
      have h3 : amt ≤ a.balance_minor := by
        rw [haf]
        exact hbal
      show 0 ≤ a.balance_minor + -amt
      omega
  · rw [if_neg h1]
    by_cases h2 : (k a == tv) = true
    · rw [if_pos h2]
      have h3 := hnn a ha
      show 0 ≤ a.balance_minor + amt
      omega
    · rw [if_neg h2]
      exact hnn a ha

/-- Setting an intent's status keeps every stored amount. -/
theorem setPIStatusV1_amount_pos (pis : List PaymentIntentV1) (piId st : String)
    (h : ∀ p ∈ pis, 0 < p.amount_minor) :
    ∀ p ∈ setPIStatusV1 pis piId st, 0 < p.amount_minor := by
  intro p hp
  unfold setPIStatusV1 at hp
  obtain ⟨q, hq, rfl⟩ := List.mem_map.mp hp
  by_cases h1 : (q.id == piId) = true
  · rw [if_pos h1]
    exact h q hq
  · rw [if_neg h1]
    exact h q hq

/-- Looking up the updated intent after a status write. -/
theorem setPIStatusV1_find? (pis : List PaymentIntentV1) (piId st : String)
    (pi : PaymentIntentV1)
    (h : pis.find? (fun p => p.id == piId) = some pi) :
    (setPIStatusV1 pis piId st).find? (fun p => p.id == piId)
      = some { pi with status := st } := by
  unfold setPIStatusV1
  rw [find?_map_of_pres _ _ _ (fun a => by by_cases h1 : (a.id == piId) = true <;> simp [h1])]
  rw [h]
  have hid : (pi.id == piId) = true := by simpa using List.find?_some h
  rw [Option.map_some', if_pos hid]

/-- Looking up the updated intent after a status write, SQLAlchemy
variant. -/
theorem setPIStatus2_find? (pis : List PaymentIntent2) (piId st : String)
    (pi : PaymentIntent2)
    (h : pis.find? (fun p => p.id == piId) = some pi) :
    (setPIStatus2 pis piId st).find? (fun p => p.id == piId)
      = some { pi with status := st } := by
  unfold setPIStatus2
  rw [find?_map_of_pres _ _ _ (fun a => by by_cases h1 : (a.id == piId) = true <;> simp [h1])]
  rw [h]
  have hid : (pi.id == piId) = true := by simpa using List.find?_some h
  rw [Option.map_some', if_pos hid]

/-- Reading an account by `id` after a SQLAlchemy balance update. -/
theorem findAccountById2_updateBal (accs : List Account2) (d : Int) (v i : String) :
    (updateBal2 accs d v).find? (fun a => a.id == i)
      = (accs.find? (fun a => a.id == i)).map
          (fun a => if a.id == v then { a with balance_minor := a.balance_minor + d } else a) := by
  unfold updateBal2
  apply find?_map_of_pres
  intro a
  by_cases h1 : (a.id == v) = true <;> simp [h1]

/-- Characterization of the successful path of `transfer`: both rows
found, both currencies equal to the request currency, source balance
covering the amount. -/
theorem transferRun_posted_eq (s : StateV1) (req : TransferRequest) (txId : String)
    (fr toR : AccountV1)
    (hfr : findAccountV1 s req.from_account = some fr)
    (hto : findAccountV1 s req.to_account = some toR)
    (hc1 : fr.currency = req.currency) (hc2 : toR.currency = req.currency)
    (hbal : ¬ fr.balance_minor < req.amount_minor) :
    transferRun s req txId =
      ({ s with
          accounts :=
            updateBalV1 (fun a => a.id)
              (updateBalV1 (fun a => a.id) s.accounts (-req.amount_minor) fr.id)
              req.amount_minor toR.id,
          transfer_txs := s.transfer_txs ++
            [{ id := txId, txType := "TRANSFER", currency := req.currency,
               amount_minor := req.amount_minor,
               from_account_id := some fr.id, to_account_id := some toR.id,
               status := "POSTED", ref_external := none, message := none }] },
       .posted txId) := by
  unfold transferRun
  rw [hfr, hto]
  simp only [hc1, hc2, bne_self_eq_false, Bool.or_self, Bool.false_eq_true,
    if_false, hbal, if_neg]

/-- Characterization of the insufficient-funds path of `transfer`. -/
theorem transferRun_insufficient_eq (s : StateV1) (req : TransferRequest) (txId : String)
    (fr toR : AccountV1)
    (hfr : findAccountV1 s req.from_account = some fr)
    (hto : findAccountV1 s req.to_account = some toR)
    (hc1 : fr.currency = req.currency) (hc2 : toR.currency = req.currency)
    (hbal : fr.balance_minor < req.amount_minor) :
    transferRun s req txId = (s, .insufficientFunds) := by
  unfold transferRun
  rw [hfr, hto]
  simp only [hc1, hc2, bne_self_eq_false, Bool.or_self, Bool.false_eq_true,
    if_false, hbal, if_pos]

/-- Characterization of the card-declined path of `confirm_pi`: intent in
REQUIRES_PAYMENT, no card row matching pan, expiry and cvc. -/
theorem confirm_pi_declined_eq (s : StateV1) (piId : String) (req : ConfirmRequest)
    (txId : String) (pi : PaymentIntentV1)
    (hpi : s.payment_intents.find? (fun p => p.id == piId) = some pi)
    (hst : pi.status = "REQUIRES_PAYMENT")
    (hcard : findCardJoinedV1 s req = none) :
    confirm_pi s piId req txId =
      ({ s with payment_intents := setPIStatusV1 s.payment_intents piId "FAILED" },
       .cardDeclined) := by
  unfold confirm_pi
  rw [hpi]
  simp only [hst, hcard]
  rw [if_neg (by decide)]

/-- Characterization of the captured path of `confirm_pi`: intent not in
a short-circuited status, matching card joined to account `acc`, source
balance covering the stored amount. -/
theorem confirm_pi_captured_eq (s : StateV1) (piId : String) (req : ConfirmRequest)
    (txId : String) (pi : PaymentIntentV1) (card : CardV1) (acc balRow : AccountV1)
    (hpi : s.payment_intents.find? (fun p => p.id == piId) = some pi)
    (hst : pi.status = "REQUIRES_PAYMENT")
    (hcard : findCardJoinedV1 s req = some (card, acc))
    (hbalRow : s.accounts.find? (fun a => a.account_no == acc.account_no) = some balRow)
    (hbal : ¬ balRow.balance_minor < pi.amount_minor) :
    confirm_pi s piId req txId =
      ({ s with
          accounts :=
            updateBalV1 (fun a => a.account_no)
              (updateBalV1 (fun a => a.account_no) s.accounts (-pi.amount_minor)
                acc.account_no)
              pi.amount_minor pi.account_no,
          card_txs := s.card_txs ++
            [{ id := txId, txType := "CARD_PAYMENT", currency := pi.currency,
               amount_minor := pi.amount_minor, from_account_no := acc.account_no,
               to_account_no := pi.account_no, status := "POSTED", message := none }],
          payment_intents := setPIStatusV1 s.payment_intents piId "CAPTURED" },
       .captured txId) := by
  unfold confirm_pi
  rw [hpi]
  simp only [hst, hcard, hbalRow, hbal, if_neg]
  simp

/-- Characterization of the card-declined path of `confirm_payment`
(SQLAlchemy variant): intent in REQUIRES_PAYMENT, no ACTIVE card row
matching pan and expiry. -/
theorem confirm_payment_declined_eq (s : State2) (piId : String) (data : ConfirmPayment)
    (txId : String) (pi : PaymentIntent2)
    (hpi : s.payment_intents.find? (fun p => p.id == piId) = some pi)
    (hst : pi.status = "REQUIRES_PAYMENT")
    (hcard : s.cards.find? (fun c =>
        c.pan == data.card_number && c.exp_month == data.exp_month &&
        c.exp_year == data.exp_year && c.status == "ACTIVE") = none) :
    confirm_payment s piId data txId =
      ({ s with payment_intents := setPIStatus2 s.payment_intents piId "FAILED" },
       .cardDeclined) := by
  unfold confirm_payment
  rw [hpi]
  simp only [hst, hcard]
  simp

/-- Characterization of the captured path of `confirm_payment`
(SQLAlchemy variant). -/
theorem confirm_payment_captured_eq (s : State2) (piId : String) (data : ConfirmPayment)
    (txId : String) (pi : PaymentIntent2) (card : Card2) (fromA toA : Account2)
    (hpi : s.payment_intents.find? (fun p => p.id == piId) = some pi)
    (hst : pi.status = "REQUIRES_PAYMENT")
    (hcard : s.cards.find? (fun c =>
        c.pan == data.card_number && c.exp_month == data.exp_month &&
        c.exp_year == data.exp_year && c.status == "ACTIVE") = some card)
    (hfrom : findAccountById2 s card.account_id = some fromA)
    (hbal : ¬ fromA.balance_minor < pi.amount_minor)
    (hto : findAccountById2 s pi.account_id = some toA) :
    confirm_payment s piId data txId =
      ({ s with
          accounts :=
            updateBal2 (updateBal2 s.accounts (-pi.amount_minor) card.account_id)
              pi.amount_minor pi.account_id,
          transactions := s.transactions ++
            [{ id := txId, txType := "CARD_PAYMENT", currency := pi.currency,
               amount_minor := pi.amount_minor, from_account_id := some fromA.id,
               to_account_id := some toA.id, status := "POSTED",
               ref_external := none, message := none }],
          payment_intents := setPIStatus2 s.payment_intents piId "CAPTURED" },
       .captured txId) := by
  unfold confirm_payment
  rw [hpi]
  simp only [hst, hcard, hfrom, hbal, hto, if_neg]
  simp

/-- Claim C4, as frozen, is false on the code: two distinct existing
accounts with sufficient source funds, but whose stored currency (`USD`)
differs from the request currency (pydantic pins the request to `DOP`);
`transfer` then returns 422 currency mismatch, mutates nothing, and
appends no `transaction_` row — the source balance does not decrease by
the amount. -/
theorem C4_counterexample :
    findAccountV1 c4state c4req.from_account = some c4accA ∧
    findAccountV1 c4state c4req.to_account = some c4accB ∧
    c4accA.id ≠ c4accB.id ∧
    c4req.amount_minor ≤ c4accA.balance_minor ∧
    transferRun c4state c4req "t1" = (c4state, TransferOutcome.currencyMismatch) ∧
    balanceOfV1 (transferRun c4state c4req "t1").1 c4req.from_account = some 100 ∧
    (transferRun c4state c4req "t1").1.transfer_txs = [] := by
  decide

/-- Claim C4 (amended): for all distinct accounts A and B (distinct
primary keys) whose currencies both equal the request currency, with
`balance(A) ≥ amt`, `transfer(A,B,amt)` decreases `balance(A)` by `amt`,
increases `balance(B)` by `amt`, appends exactly one `transaction_` row
with status POSTED, succeeds with POSTED, and conserves
`balance(A) + balance(B)`. -/
theorem C4_transfer_success (s : StateV1) (req : TransferRequest) (txId : String)
    (A B : AccountV1)
    (hA : findAccountV1 s req.from_account = some A)
    (hB : findAccountV1 s req.to_account = some B)
    (hAB : A.id ≠ B.id)
    (hc1 : A.currency = req.currency) (hc2 : B.currency = req.currency)
    (hbal : req.amount_minor ≤ A.balance_minor) :
    balanceOfV1 (transferRun s req txId).1 req.from_account
        = some (A.balance_minor - req.amount_minor) ∧
    balanceOfV1 (transferRun s req txId).1 req.to_account
        = some (B.balance_minor + req.amount_minor) ∧
    (transferRun s req txId).1.transfer_txs = s.transfer_txs ++
      [{ id := txId, txType := "TRANSFER", currency := req.currency,
         amount_minor := req.amount_minor, from_account_id := some A.id,
         to_account_id := some B.id, status := "POSTED",
         ref_external := none, message := none }] ∧
    (transferRun s req txId).2 = TransferOutcome.posted txId ∧
    (A.balance_minor - req.amount_minor) + (B.balance_minor + req.amount_minor)
      = A.balance_minor + B.balance_minor := by
  have hrun := transferRun_posted_eq s req txId A B hA hB hc1 hc2 (by omega)
  have hacc : (transferRun s req txId).1.accounts
      = updateBalV1 (fun a => a.id)
          (updateBalV1 (fun a => a.id) s.accounts (-req.amount_minor) A.id)
          req.amount_minor B.id := by rw [hrun]
  have htx : (transferRun s req txId).1.transfer_txs = s.transfer_txs ++
      [{ id := txId, txType := "TRANSFER", currency := req.currency,
         amount_minor := req.amount_minor, from_account_id := some A.id,
         to_account_id := some B.id, status := "POSTED",
         ref_external := none, message := none }] := by rw [hrun]
  have hout : (transferRun s req txId).2 = TransferOutcome.posted txId := by rw [hrun]
  have hidA : (A.id == A.id) = true := by simp
  have hidAB : (A.id == B.id) = false := by simpa using hAB
  have hidB : (B.id == B.id) = true := by simp
  have hidBA : (B.id == A.id) = false := by
    have : B.id ≠ A.id := fun h => hAB h.symm
    simpa using this
  refine ⟨?_, ?_, htx, hout, by omega⟩
  · unfold balanceOfV1 findAccountV1
    rw [hacc, findAccountV1_updateBal, findAccountV1_updateBal]
    unfold findAccountV1 at hA
    rw [hA]
    simp only [Option.map_some', hidA, if_true, hidAB, if_false]
    have : A.balance_minor + -req.amount_minor = A.balance_minor - req.amount_minor := by
      omega
    simp [this]
  · unfold balanceOfV1 findAccountV1
    rw [hacc, findAccountV1_updateBal, findAccountV1_updateBal]
    unfold findAccountV1 at hB
    rw [hB]
    simp only [Option.map_some', hidB, if_true, hidBA, if_false]
    simp

/-- Witness for the amended C4 at a concrete state. -/
theorem C4_transfer_success_witness :
    balanceOfV1 (transferRun w4state w4req "t1").1 "ACC-A" = some 70 ∧
    balanceOfV1 (transferRun w4state w4req "t1").1 "ACC-B" = some 55 ∧
    (transferRun w4state w4req "t1").2 = TransferOutcome.posted "t1" := by
  have h := C4_transfer_success w4state w4req "t1" w4accA w4accB (by decide)
    (by decide) (by decide) (by decide) (by decide) (by decide)
  exact ⟨h.1.trans (by decide), h.2.1.trans (by decide), h.2.2.2.1⟩

/-- Claim C5, as frozen, is false on the code: with `balance(A) < amt`
but account currencies (`USD`) differing from the request currency, the
currency check fires first and `transfer` fails with the currency
mismatch error, not with `InsufficientFunds` (balances and the
transaction table are still untouched). -/
theorem C5_counterexample :
    findAccountV1 c5state c5req.from_account = some c5accA ∧
    findAccountV1 c5state c5req.to_account = some c5accB ∧
    c5accA.balance_minor < c5req.amount_minor ∧
    transferRun c5state c5req "t1" = (c5state, TransferOutcome.currencyMismatch) ∧
    (transferRun c5state c5req "t1").2 ≠ TransferOutcome.insufficientFunds := by
  decide

/-- Claim C5 (amended): for all accounts A and B whose currencies equal
the request currency, with `balance(A) < amt`, `transfer(A,B,amt)` fails
with the insufficient-funds error and the committed state is exactly the
input state — both balances unchanged and zero `transaction_` rows
appended. -/
theorem C5_insufficient_funds (s : StateV1) (req : TransferRequest) (txId : String)
    (A B : AccountV1)
    (hA : findAccountV1 s req.from_account = some A)
    (hB : findAccountV1 s req.to_account = some B)
    (hc1 : A.currency = req.currency) (hc2 : B.currency = req.currency)
    (hbal : A.balance_minor < req.amount_minor) :
    transferRun s req txId = (s, TransferOutcome.insufficientFunds) ∧
    balanceOfV1 (transferRun s req txId).1 req.from_account = some A.balance_minor ∧
    balanceOfV1 (transferRun s req txId).1 req.to_account = some B.balance_minor ∧
    (transferRun s req txId).1.transfer_txs = s.transfer_txs := by
  have hrun := transferRun_insufficient_eq s req txId A B hA hB hc1 hc2 hbal
  refine ⟨hrun, ?_, ?_, by rw [hrun]⟩
  · rw [hrun]
    unfold balanceOfV1
    rw [hA]
    rfl
  · rw [hrun]
    unfold balanceOfV1
    rw [hB]
    rfl

/-- Witness for the amended C5 at a concrete state. -/
theorem C5_insufficient_funds_witness :
    transferRun w5state w5req "t1" = (w5state, TransferOutcome.insufficientFunds) := by
  have h := C5_insufficient_funds w5state w5req "t1" w5accA w5accB (by decide)
    (by decide) (by decide) (by decide) (by decide)
  exact h.1

/-- Claim C7, as frozen, is false on the code: a self-transfer
(`from_account = to_account`) with sufficient funds is accepted —
`transfer` returns POSTED and appends a transaction row (so the state
does change), instead of failing with `InvalidOperation`; likewise a
request with `amount_minor = -5 ≤ 0` is accepted and returns POSTED. -/
theorem C7_counterexample :
    c7selfReq.from_account = c7selfReq.to_account ∧
    (transferRun c7state c7selfReq "t1").2 = TransferOutcome.posted "t1" ∧
    (transferRun c7state c7selfReq "t1").1 ≠ c7state ∧
    c7negReq.amount_minor ≤ 0 ∧
    (transferRun c7state c7negReq "t2").2 = TransferOutcome.posted "t2" := by
  decide

/-- Claim C7 (amended): `transfer` performs no self-transfer and no
amount-sign validation.  A self-transfer whose account exists, whose
currency matches and whose balance covers the amount succeeds with
POSTED, leaves that balance unchanged (debit then credit of the same
row), yet appends one POSTED `transaction_` row; and a request with
`amount_minor ≤ 0` against existing currency-matching accounts (source
balance non-negative) also succeeds with POSTED.  No `InvalidOperation`
error exists anywhere in the code. -/
theorem C7_no_validation :
    (∀ (s : StateV1) (req : TransferRequest) (txId : String) (A : AccountV1),
       req.from_account = req.to_account →
       findAccountV1 s req.from_account = some A →
       A.currency = req.currency →
       req.amount_minor ≤ A.balance_minor →
       (transferRun s req txId).2 = TransferOutcome.posted txId ∧
       balanceOfV1 (transferRun s req txId).1 req.from_account = some A.balance_minor ∧
       (transferRun s req txId).1.transfer_txs = s.transfer_txs ++
         [{ id := txId, txType := "TRANSFER", currency := req.currency,
            amount_minor := req.amount_minor, from_account_id := some A.id,
            to_account_id := some A.id, status := "POSTED",
            ref_external := none, message := none }]) ∧
    (∀ (s : StateV1) (req : TransferRequest) (txId : String) (A B : AccountV1),
       req.amount_minor ≤ 0 →
       0 ≤ A.balance_minor →
       findAccountV1 s req.from_account = some A →
       findAccountV1 s req.to_account = some B →
       A.currency = req.currency →
       B.currency = req.currency →
       (transferRun s req txId).2 = TransferOutcome.posted txId) := by
  constructor
  · intro s req txId A hself hA hc hbal
    have hB : findAccountV1 s req.to_account = some A := by
      rw [← hself]
      exact hA
    have hrun := transferRun_posted_eq s req txId A A hA hB hc hc (by omega)
    refine ⟨by rw [hrun], ?_, by rw [hrun]⟩
    have hacc : (transferRun s req txId).1.accounts
        = updateBalV1 (fun a => a.id)
            (updateBalV1 (fun a => a.id) s.accounts (-req.amount_minor) A.id)
            req.amount_minor A.id := by rw [hrun]
    unfold balanceOfV1 findAccountV1
    rw [hacc, findAccountV1_updateBal, findAccountV1_updateBal]
    unfold findAccountV1 at hA
    rw [hA]
    have hid : (A.id == A.id) = true := by simp
    simp only [Option.map_some', hid, if_true]
    have hsum : A.balance_minor + -req.amount_minor + req.amount_minor
        = A.balance_minor := by omega
    simp [hsum]
  · intro s req txId A B hneg hnn hA hB hc1 hc2
    have hrun := transferRun_posted_eq s req txId A B hA hB hc1 hc2 (by omega)
    rw [hrun]

/-- Witness for the amended C7 at a concrete state (both conjuncts). -/
theorem C7_no_validation_witness :
    (transferRun c7state c7selfReq "t1").2 = TransferOutcome.posted "t1" ∧
    (transferRun c7state c7negReq "t2").2 = TransferOutcome.posted "t2" := by
  have h := C7_no_validation
  exact ⟨(h.1 c7state c7selfReq "t1" c7accA (by decide) (by decide) (by decide)
            (by decide)).1,
         h.2 c7state c7negReq "t2" c7accA c7accB (by decide) (by decide)
           (by decide) (by decide) (by decide) (by decide)⟩

/-- Claim C1 fails on `confirm_pi` (`src/app/main.py`): its terminal-state
guard tests only `("CAPTURED","CANCELED")` and omits `"FAILED"`, so a
confirm call on a FAILED intent re-executes the money movement — here the
FAILED intent is re-captured: the outcome is `captured`, the stored
status becomes CAPTURED (not the unchanged FAILED), the source balance
drops from 100 to 70, and a transaction row is appended.  (The SQLAlchemy
variant's `confirm_payment` short-circuits every non-REQUIRES_PAYMENT
status and behaves as the claim states.) -/
theorem C1_failed_intent_recaptured :
    c1intent.status = "FAILED" ∧
    (confirm_pi c1state "pi1" c1req "t1").2 = ConfirmOutcome.captured "t1" ∧
    balanceOfV1 (confirm_pi c1state "pi1" c1req "t1").1 "ACC-S" = some 70 ∧
    balanceOfV1 (confirm_pi c1state "pi1" c1req "t1").1 "ACC-D" = some 30 ∧
    ((confirm_pi c1state "pi1" c1req "t1").1.payment_intents.find?
        (fun p => p.id == "pi1")).map (fun p => p.status) = some "CAPTURED" ∧
    (confirm_pi c1state "pi1" c1req "t1").1.card_txs ≠ [] := by
  decide

/-- Claim C6, as frozen, is false on `confirm_pi` (`src/app/main.py`):
its card lookup never filters on card status, so with an intent in
REQUIRES_PAYMENT and NO ACTIVE card matching the presented number and
expiry (the only stored card is BLOCKED), the call does not fail with
CardDeclined and does not set the intent to FAILED — it captures the
payment and moves the balance. -/
theorem C6_counterexample :
    c6state.cards.all (fun c => c.status == "BLOCKED") = true ∧
    c6intent.status = "REQUIRES_PAYMENT" ∧
    (confirm_pi c6state "pi1" c6req "t1").2 = ConfirmOutcome.captured "t1" ∧
    (confirm_pi c6state "pi1" c6req "t1").2 ≠ ConfirmOutcome.cardDeclined ∧
    balanceOfV1 (confirm_pi c6state "pi1" c6req "t1").1 "ACC-S" = some 70 ∧
    ((confirm_pi c6state "pi1" c6req "t1").1.payment_intents.find?
        (fun p => p.id == "pi1")).map (fun p => p.status) = some "CAPTURED" := by
  decide

/-- Claim C6 (amended): the FAILED-commit-and-decline behaviour holds
with the card-match condition each variant actually implements.  In the
pymysql variant (`confirm_pi`) the lookup ignores card status: when no
card at all matches pan, expiry and cvc (joined to an existing account),
the intent is set to FAILED in the committed state, the call fails with
CardDeclined, and no balance changes.  In the SQLAlchemy variant
(`confirm_payment`) the same holds exactly as the claim states, i.e. when
no ACTIVE card matches pan and expiry. -/
theorem C6_card_declined :
    (∀ (s : StateV1) (piId : String) (req : ConfirmRequest) (txId : String)
       (pi : PaymentIntentV1),
       s.payment_intents.find? (fun p => p.id == piId) = some pi →
       pi.status = "REQUIRES_PAYMENT" →
       findCardJoinedV1 s req = none →
       confirm_pi s piId req txId =
         ({ s with payment_intents := setPIStatusV1 s.payment_intents piId "FAILED" },
          ConfirmOutcome.cardDeclined) ∧
       (confirm_pi s piId req txId).1.accounts = s.accounts ∧
       ((confirm_pi s piId req txId).1.payment_intents.find?
           (fun p => p.id == piId)).map (fun p => p.status) = some "FAILED") ∧
    (∀ (s : State2) (piId : String) (data : ConfirmPayment) (txId : String)
       (pi : PaymentIntent2),
       s.payment_intents.find? (fun p => p.id == piId) = some pi →
       pi.status = "REQUIRES_PAYMENT" →
       s.cards.find? (fun c =>
         c.pan == data.card_number && c.exp_month == data.exp_month &&
         c.exp_year == data.exp_year && c.status == "ACTIVE") = none →
       confirm_payment s piId data txId =
         ({ s with payment_intents := setPIStatus2 s.payment_intents piId "FAILED" },
          ConfirmOutcome.cardDeclined) ∧
       (confirm_payment s piId data txId).1.accounts = s.accounts ∧
       ((confirm_payment s piId data txId).1.payment_intents.find?
           (fun p => p.id == piId)).map (fun p => p.status) = some "FAILED") := by
  constructor
  · intro s piId req txId pi hpi hst hcard
    have hrun := confirm_pi_declined_eq s piId req txId pi hpi hst hcard
    refine ⟨hrun, by rw [hrun], ?_⟩
    have hpis : (confirm_pi s piId req txId).1.payment_intents
        = setPIStatusV1 s.payment_intents piId "FAILED" := by rw [hrun]
    rw [hpis, setPIStatusV1_find? _ _ _ _ hpi]
    rfl
  · intro s piId data txId pi hpi hst hcard
    have hrun := confirm_payment_declined_eq s piId data txId pi hpi hst hcard
    refine ⟨hrun, by rw [hrun], ?_⟩
    have hpis : (confirm_payment s piId data txId).1.payment_intents
        = setPIStatus2 s.payment_intents piId "FAILED" := by rw [hrun]
    rw [hpis, setPIStatus2_find? _ _ _ _ hpi]
    rfl

/-- Witness for the amended C6 at concrete states (both variants). -/
theorem C6_card_declined_witness :
    (confirm_pi w6state "pi1" w6req "t1").2 = ConfirmOutcome.cardDeclined ∧
    (confirm_payment w6state2 "pi1" w6data2 "t1").2 = ConfirmOutcome.cardDeclined := by
  have h := C6_card_declined
  constructor
  · have h1 := h.1 w6state "pi1" w6req "t1" w6intent (by decide) (by decide) (by decide)
    rw [h1.1]
  · have h2 := h.2 w6state2 "pi1" w6data2 "t1" w6intent2 (by decide) (by decide)
      (by decide)
    rw [h2.1]

/-- Claim C10: neither confirm endpoint ever fails with a currency
mismatch — no such error constructor even exists in either confirm
outcome, because neither code path compares currencies.  For every
confirm of a REQUIRES_PAYMENT intent with a matching card and sufficient
funds (distinct funding and destination accounts), the capture goes
through: the funding account is debited, the destination credited, the
intent set to CAPTURED, and the appended POSTED transaction carries the
INTENT's currency — with no hypothesis anywhere about the funding
account's currency, which may differ freely.  Stated for both variants:
`confirm_payment` (SQLAlchemy) and `confirm_pi` (pymysql). -/
theorem C10_capture_ignores_currency :
    (∀ (s : State2) (piId : String) (data : ConfirmPayment) (txId : String)
       (pi : PaymentIntent2) (card : Card2) (fromA toA : Account2),
       s.payment_intents.find? (fun p => p.id == piId) = some pi →
       pi.status = "REQUIRES_PAYMENT" →
       s.cards.find? (fun c =>
         c.pan == data.card_number && c.exp_month == data.exp_month &&
         c.exp_year == data.exp_year && c.status == "ACTIVE") = some card →
       findAccountById2 s card.account_id = some fromA →
       findAccountById2 s pi.account_id = some toA →
       pi.amount_minor ≤ fromA.balance_minor →
       fromA.id ≠ toA.id →
       (confirm_payment s piId data txId).2 = ConfirmOutcome.captured txId ∧
       (confirm_payment s piId data txId).1.transactions = s.transactions ++
         [{ id := txId, txType := "CARD_PAYMENT", currency := pi.currency,
            amount_minor := pi.amount_minor, from_account_id := some fromA.id,
            to_account_id := some toA.id, status := "POSTED",
            ref_external := none, message := none }] ∧
       balanceOfById2 (confirm_payment s piId data txId).1 card.account_id
         = some (fromA.balance_minor - pi.amount_minor) ∧
       balanceOfById2 (confirm_payment s piId data txId).1 pi.account_id
         = some (toA.balance_minor + pi.amount_minor) ∧
       ((confirm_payment s piId data txId).1.payment_intents.find?
           (fun p => p.id == piId)).map (fun p => p.status) = some "CAPTURED") ∧
    (∀ (s : StateV1) (piId : String) (req : ConfirmRequest) (txId : String)
       (pi : PaymentIntentV1) (card : CardV1) (acc dstA : AccountV1),
       s.payment_intents.find? (fun p => p.id == piId) = some pi →
       pi.status = "REQUIRES_PAYMENT" →
       findCardJoinedV1 s req = some (card, acc) →
       s.accounts.find? (fun a => a.account_no == acc.account_no) = some acc →
       findAccountV1 s pi.account_no = some dstA →
       pi.amount_minor ≤ acc.balance_minor →
       acc.account_no ≠ pi.account_no →
       (confirm_pi s piId req txId).2 = ConfirmOutcome.captured txId ∧
       (confirm_pi s piId req txId).1.card_txs = s.card_txs ++
         [{ id := txId, txType := "CARD_PAYMENT", currency := pi.currency,
            amount_minor := pi.amount_minor, from_account_no := acc.account_no,
            to_account_no := pi.account_no, status := "POSTED", message := none }] ∧
       balanceOfV1 (confirm_pi s piId req txId).1 acc.account_no
         = some (acc.balance_minor - pi.amount_minor) ∧
       balanceOfV1 (confirm_pi s piId req txId).1 pi.account_no
         = some (dstA.balance_minor + pi.amount_minor) ∧
       ((confirm_pi s piId req txId).1.payment_intents.find?
           (fun p => p.id == piId)).map (fun p => p.status) = some "CAPTURED") := by
  constructor
  · intro s piId data txId pi card fromA toA hpi hst hcard hfrom hto hbal hne
    have hrun := confirm_payment_captured_eq s piId data txId pi card fromA toA
      hpi hst hcard hfrom (by omega) hto
    have hfid : (fromA.id == card.account_id) = true := by
      simpa using List.find?_some hfrom
    have htid : (toA.id == pi.account_id) = true := by
      simpa using List.find?_some hto
    have hfideq : fromA.id = card.account_id := eq_of_beq hfid
    have htideq : toA.id = pi.account_id := eq_of_beq htid
    have hacc : (confirm_payment s piId data txId).1.accounts
        = updateBal2 (updateBal2 s.accounts (-pi.amount_minor) card.account_id)
            pi.amount_minor pi.account_id := by rw [hrun]
    refine ⟨by rw [hrun], by rw [hrun], ?_, ?_, ?_⟩
    · unfold balanceOfById2 findAccountById2
      rw [hacc, findAccountById2_updateBal, findAccountById2_updateBal]
      unfold findAccountById2 at hfrom
      rw [hfrom]
      have h1 : (fromA.id == card.account_id) = true := hfid
      have h2 : (fromA.id == pi.account_id) = false := by
        rw [← htideq]
        simpa using hne
      simp only [Option.map_some', h1, if_true, h2, if_false]
      have hsum : fromA.balance_minor + -pi.amount_minor
          = fromA.balance_minor - pi.amount_minor := by omega
      simp [hsum]
    · unfold balanceOfById2 findAccountById2
      rw [hacc, findAccountById2_updateBal, findAccountById2_updateBal]
      unfold findAccountById2 at hto
      rw [hto]
      have h1 : (toA.id == card.account_id) = false := by
        rw [← hfideq]
        have : toA.id ≠ fromA.id := fun h => hne h.symm
        simpa using this
      have h2 : (toA.id == pi.account_id) = true := htid
      simp only [Option.map_some', h1, if_false, h2, if_true]
      simp [htideq]
    · have hpis : (confirm_payment s piId data txId).1.payment_intents
          = setPIStatus2 s.payment_intents piId "CAPTURED" := by rw [hrun]
      rw [hpis, setPIStatus2_find? _ _ _ _ hpi]
      rfl
  · intro s piId req txId pi card acc dstA hpi hst hcard hacc2 hdst hbal hne
    have hrun := confirm_pi_captured_eq s piId req txId pi card acc acc
      hpi hst hcard hacc2 (by omega)
    have hdid : (dstA.account_no == pi.account_no) = true := by
      simpa using List.find?_some hdst
    have hdideq : dstA.account_no = pi.account_no := eq_of_beq hdid
    have haccs : (confirm_pi s piId req txId).1.accounts
        = updateBalV1 (fun a => a.account_no)
            (updateBalV1 (fun a => a.account_no) s.accounts (-pi.amount_minor)
              acc.account_no)
            pi.amount_minor pi.account_no := by rw [hrun]
    refine ⟨by rw [hrun], by rw [hrun], ?_, ?_, ?_⟩
    · unfold balanceOfV1 findAccountV1
      rw [haccs, findAccountV1_updateBal, findAccountV1_updateBal, hacc2]
      have h1 : (acc.account_no == acc.account_no) = true := by simp
      have h2 : (acc.account_no == pi.account_no) = false := by simpa using hne
      simp only [Option.map_some', h1, if_true, h2, if_false]
      have hsum : acc.balance_minor + -pi.amount_minor
          = acc.balance_minor - pi.amount_minor := by omega
      simp [hsum]
    · unfold balanceOfV1 findAccountV1
      unfold findAccountV1 at hdst
      rw [haccs, findAccountV1_updateBal, findAccountV1_updateBal, hdst]
      have h1 : (dstA.account_no == acc.account_no) = false := by
        rw [hdideq]
        have : pi.account_no ≠ acc.account_no := fun h => hne h.symm
        simpa using this
      have h2 : (dstA.account_no == pi.account_no) = true := hdid
      simp only [Option.map_some', h1, if_false, h2, if_true]
      simp [hdideq]
    · have hpis : (confirm_pi s piId req txId).1.payment_intents
          = setPIStatusV1 s.payment_intents piId "CAPTURED" := by rw [hrun]
      rw [hpis, setPIStatusV1_find? _ _ _ _ hpi]
      rfl

/-- Witness for C10 at concrete states in which the funding account's
currency (USD) differs from the intent's currency (DOP), in both
variants. -/
theorem C10_capture_ignores_currency_witness :
    w10fromA2.currency ≠ w10intent2.currency ∧
    (confirm_payment w10state2 "pi1" w10data2 "t1").2 = ConfirmOutcome.captured "t1" ∧
    balanceOfById2 (confirm_payment w10state2 "pi1" w10data2 "t1").1
      w10card2.account_id = some 70 ∧
    w10accS.currency ≠ w10intentV1.currency ∧
    (confirm_pi w10stateV1 "pi1" w10reqV1 "t2").2 = ConfirmOutcome.captured "t2" := by
  have h := C10_capture_ignores_currency
  have h1 := h.1 w10state2 "pi1" w10data2 "t1" w10intent2 w10card2 w10fromA2 w10toA2
    (by decide) (by decide) (by decide) (by decide) (by decide) (by decide) (by decide)
  have h2 := h.2 w10stateV1 "pi1" w10reqV1 "t2" w10intentV1 w10cardV1 w10accS w10accD
    (by decide) (by decide) (by decide) (by decide) (by decide) (by decide) (by decide)
  exact ⟨by decide, h1.1, h1.2.2.1.trans (by decide), by decide, h2.1⟩

/-- Claim C9: in the SQLAlchemy variant, `create_payment_intent` copies
the destination account's currency into the stored intent — the request
schema (`PaymentIntentCreate`) has no currency field, so the caller
cannot choose it — and at creation the invariant
`intent.currency = account(intent.account_id).currency` holds: the new
row's `account_id` is the found account's primary key, and looking that
key up in the (unchanged, key-unique) accounts table returns that same
account, whose currency is the intent's currency. -/
theorem C9_intent_currency_from_account (s : State2) (data : PaymentIntentCreate)
    (piId : String) (acct : Account2)
    (hwf : (s.accounts.map (fun a => a.id)).Nodup)
    (hacct : findAccountByNo2 s data.account_no = some acct) :
    (create_payment_intent s data piId).2 = CreatePI2Outcome.created piId ∧
    (create_payment_intent s data piId).1.payment_intents
      = s.payment_intents ++
        [{ id := piId, account_id := acct.id, amount_minor := data.amount_minor,
           currency := acct.currency, status := "REQUIRES_PAYMENT",
           description := data.description }] ∧
    findAccountById2 (create_payment_intent s data piId).1 acct.id = some acct := by
  unfold create_payment_intent
  rw [hacct]
  refine ⟨rfl, rfl, ?_⟩
  unfold findAccountById2
  have hmem : acct ∈ s.accounts := by
    unfold findAccountByNo2 at hacct
    exact List.mem_of_find?_eq_some hacct
  exact find?_key_self (fun a => a.id) s.accounts acct hwf hmem

/-- Witness for C9 at a concrete state. -/
theorem C9_intent_currency_from_account_witness :
    (create_payment_intent w9state w9data "pi1").2 = CreatePI2Outcome.created "pi1" ∧
    ((create_payment_intent w9state w9data "pi1").1.payment_intents.map
        (fun p => p.currency)) = ["DOP"] := by
  have h := C9_intent_currency_from_account w9state w9data "pi1" w9acct
    (by decide) (by decide)
  exact ⟨h.1, by rw [h.2.1]; decide⟩

/-- Claim C2, as frozen, is false on the code: a paylink whose stored
expiry timestamp (0) lies in the past of any later clock reading (say
1000) still resolves to the payable page instead of failing with
`LinkInvalid` — `link_de_pago` never reads `expires_at`, and the
`Paylink` model has no `used` flag at all that could block it. -/
theorem C2_counterexample :
    c2link.expires_at = some 0 ∧ (0 : Int) < 1000 ∧
    link_de_pago c2state "pl-abc12345" = ResolveOutcome.payable c2link c2acct ∧
    link_de_pago c2state "pl-abc12345" ≠ ResolveOutcome.linkInvalid := by
  decide

/-- Claim C2 (amended): paylink resolution checks only whether the slug
is stored.  `link_de_pago` fails with `LinkInvalid` exactly when the slug
is unknown; whenever the slug row exists (and its account exists) it
resolves to the payable page with NO condition on `expires_at` — the
expiry column is never consulted and the model has no used flag — so an
expired or already-used link keeps resolving for any prior valid state.
Likewise the pymysql demo-confirm endpoint forwards any stored slug bound
to an intent straight to `confirm_pi`, with no expiry or single-use
check. -/
theorem C2_resolve_checks_only_slug :
    (∀ (s : State2) (code : String),
       s.paylinks.find? (fun l => l.slug == code) = none →
       link_de_pago s code = ResolveOutcome.linkInvalid) ∧
    (∀ (s : State2) (code : String) (link : Paylink2) (acct : Account2),
       s.paylinks.find? (fun l => l.slug == code) = some link →
       findAccountById2 s link.account_id = some acct →
       link_de_pago s code = ResolveOutcome.payable link acct) ∧
    (∀ (s : StateV1) (slug : String) (link : PaylinkV1) (piId : String)
       (req : ConfirmRequest) (txId : String),
       s.paylinks.find? (fun l => l.slug == slug) = some link →
       link.payment_intent_id = some piId →
       demo_confirm s slug req txId
         = ((confirm_pi s piId req txId).1,
            DemoConfirmOutcome.confirmed (confirm_pi s piId req txId).2)) := by
  refine ⟨?_, ?_, ?_⟩
  · intro s code hnone
    unfold link_de_pago
    rw [hnone]
  · intro s code link acct hlink hacct
    have hacct2 : findAccountById2 s link.account_id = some acct := hacct
    unfold link_de_pago
    rw [hlink]
    simp only [hacct2]
  · intro s slug link piId req txId hlink hpi
    unfold demo_confirm
    rw [hlink]
    simp only [hpi]

/-- Witness for the amended C2 at concrete states, applying both the
unknown-slug part and the stored-expired-slug part. -/
theorem C2_resolve_checks_only_slug_witness :
    link_de_pago c2state "pl-unknown" = ResolveOutcome.linkInvalid ∧
    link_de_pago c2state "pl-abc12345" = ResolveOutcome.payable c2link c2acct := by
  have h := C2_resolve_checks_only_slug
  exact ⟨h.1 c2state "pl-unknown" (by decide),
         h.2.1 c2state "pl-abc12345" c2link c2acct (by decide) (by decide)⟩

/-- Claim C8, as frozen, is false on the code: the slug keeps only the
first 8 of the 32 hex characters of the uuid, so two different
128-bit-sized uuid expansions that agree on their first 8 characters
collide on the very same token — the token space cannot have 2^128
values (the amended theorem bounds it by 2^32). -/
theorem C8_counterexample :
    c8hex1 ≠ c8hex2 ∧ c8hex1.length = 32 ∧ c8hex2.length = 32 ∧
    c8hex1.all isHexChar = true ∧ c8hex2.all isHexChar = true ∧
    mkSlug c8hex1 = mkSlug c8hex2 := by
  decide

/-- The value-to-digit and digit-to-value maps invert on hex digits. -/
theorem hexDigit_hexVal : ∀ c ∈ hexChars, hexDigit (hexVal c) = c := by
  decide

/-- Hex digits are URL-safe. -/
theorem urlSafe_of_hexChar : ∀ c ∈ hexChars, urlSafeChar c = true := by
  decide

/-- The first eight characters of a 32-character list, as a vector. -/
theorem take8_eq_ofFn (l : List Char) (hlen : l.length = 32) :
    l.take 8 = List.ofFn (fun i : Fin 8 => l.getD i.val '0') := by
  apply List.ext_getElem
  · simp [hlen]
  · intro i h1 h2
    have hi8 : i < 8 := by simpa using h2
    have hil : i < l.length := by omega
    rw [List.getElem_take, List.getElem_ofFn]
    rw [List.getD_eq_getElem l '0' hil]

/-- Claim C8 (amended): every token the generator can produce from a
32-character hex uuid expansion is URL-safe and of fixed length 11, but
it is determined by just the first eight hex digits: it always equals
`slugOfVec v` for some vector of eight 16-valued coordinates, a space of
`2 ^ 32` tokens — far below the claimed `2 ^ 128`. -/
theorem C8_token_space (h : List Char) (hlen : h.length = 32)
    (hhex : ∀ c ∈ h, isHexChar c = true) :
    (mkSlug h).length = 11 ∧
    (∀ c ∈ (mkSlug h).data, urlSafeChar c = true) ∧
    (∃ v : Fin 8 → Fin 16, mkSlug h = slugOfVec v) ∧
    Fintype.card (Fin 8 → Fin 16) = 2 ^ 32 ∧ (2 : Nat) ^ 32 < 2 ^ 128 := by
  have hmem8 : ∀ c ∈ h.take 8, c ∈ hexChars := by
    intro c hc
    have hch : c ∈ h := List.mem_of_mem_take hc
    have := hhex c hch
    unfold isHexChar at this
    simpa using this
  refine ⟨?_, ?_, ?_, ?_, by norm_num⟩
  · unfold mkSlug
    rw [String.length_append]
    show 3 + (h.take 8).length = 11
    rw [List.length_take, hlen]
    norm_num
  · intro c hc
    unfold mkSlug at hc
    rw [String.data_append] at hc
    rcases List.mem_append.mp hc with hc1 | hc2
    · have : c = 'p' ∨ c = 'l' ∨ c = '-' := by simpa using hc1
      rcases this with rfl | rfl | rfl <;> decide
    · have : c ∈ h.take 8 := hc2
      exact urlSafe_of_hexChar c (hmem8 c this)
  · refine ⟨fun i => hexVal (h.getD i.val '0'), ?_⟩
    unfold mkSlug slugOfVec
    congr 2
    rw [take8_eq_ofFn h hlen]
    have hfun : (fun i : Fin 8 => h.getD i.val '0')
        = fun i : Fin 8 => hexDigit (hexVal (h.getD i.val '0')) := by
      funext i
      have hil : i.val < h.length := by omega
      have hmem : h.getD i.val '0' ∈ hexChars := by
        rw [List.getD_eq_getElem h '0' hil]
        have hmem2 : h[i.val] ∈ h := List.getElem_mem hil
        have hx := hhex _ hmem2
        unfold isHexChar at hx
        simpa using hx
      rw [hexDigit_hexVal _ hmem]
    rw [hfun]
  · rw [Fintype.card_fun]
    simp

/-- Witness for the amended C8 at a concrete hex expansion. -/
theorem C8_token_space_witness :
    (mkSlug c8hex1).length = 11 ∧ (∃ v : Fin 8 → Fin 16, mkSlug c8hex1 = slugOfVec v) := by
  have h := C8_token_space c8hex1 (by decide) (by decide)
  exact ⟨h.1, h.2.2.1⟩

/-- `transfer` preserves the well-formed-state invariant when the
request amount is positive. -/
theorem invV1_transferRun (s : StateV1) (req : TransferRequest) (txId : String)
    (hInv : InvV1 s) (hamt : 0 < req.amount_minor) :
    InvV1 (transferRun s req txId).1 := by
  obtain ⟨hnd1, hnd2, hnn, hpis⟩ := hInv
  cases hfr : findAccountV1 s req.from_account with
  | none =>
    have heq : transferRun s req txId = (s, .accountNotFound) := by
      unfold transferRun
      rw [hfr]
    rw [heq]
    exact ⟨hnd1, hnd2, hnn, hpis⟩
  | some fr =>
    cases hto : findAccountV1 s req.to_account with
    | none =>
      have heq : transferRun s req txId = (s, .accountNotFound) := by
        unfold transferRun
        rw [hfr, hto]
      rw [heq]
      exact ⟨hnd1, hnd2, hnn, hpis⟩
    | some toR =>
      by_cases hcur : (fr.currency != req.currency || toR.currency != req.currency) = true
      · have heq : transferRun s req txId = (s, .currencyMismatch) := by
          unfold transferRun
          rw [hfr, hto]
          dsimp only
          rw [if_pos hcur]
        rw [heq]
        exact ⟨hnd1, hnd2, hnn, hpis⟩
      · rw [Bool.or_eq_true, not_or] at hcur
        obtain ⟨hx, hy⟩ := hcur
        have hc1 : fr.currency = req.currency := by simpa using hx
        have hc2 : toR.currency = req.currency := by simpa using hy
        by_cases hbal : fr.balance_minor < req.amount_minor
        · rw [transferRun_insufficient_eq s req txId fr toR hfr hto hc1 hc2 hbal]
          exact ⟨hnd1, hnd2, hnn, hpis⟩
        · rw [transferRun_posted_eq s req txId fr toR hfr hto hc1 hc2 hbal]
          dsimp only
          refine ⟨?_, ?_, ?_, hpis⟩
          · rw [map_key_updateBalV1 (fun a => a.id) (fun a => a.id) _ _ _
                  (fun a b => rfl),
                map_key_updateBalV1 (fun a => a.id) (fun a => a.id) _ _ _
                  (fun a b => rfl)]
            exact hnd1
          · rw [map_key_updateBalV1 (fun a => a.id) (fun a => a.account_no) _ _ _
                  (fun a b => rfl),
                map_key_updateBalV1 (fun a => a.id) (fun a => a.account_no) _ _ _
                  (fun a b => rfl)]
            exact hnd2
          · have hfrmem : fr ∈ s.accounts := by
              unfold findAccountV1 at hfr
              exact List.mem_of_find?_eq_some hfr
            exact updateBal_twice_nonneg (fun a => a.id) s.accounts
              req.amount_minor fr toR.id (fun a b => rfl) hnd1 hfrmem
              (by omega) (by omega) hnn

/-- `create_pi` preserves the well-formed-state invariant when the
request amount is positive. -/
theorem invV1_create_pi (s : StateV1) (req : CreatePIRequest)
    (piId linkId slug : String)
    (hInv : InvV1 s) (hamt : 0 < req.amount_minor) :
    InvV1 (create_pi s req piId linkId slug).1 := by
  obtain ⟨hnd1, hnd2, hnn, hpis⟩ := hInv
  unfold create_pi
  cases hacct : findAccountV1 s req.account_no with
  | none => exact ⟨hnd1, hnd2, hnn, hpis⟩
  | some acct =>
    dsimp only
    have hnew : ∀ p ∈ s.payment_intents ++
        [{ id := piId, account_no := req.account_no,
           amount_minor := req.amount_minor, currency := req.currency,
           status := "REQUIRES_PAYMENT",
           description := req.description : PaymentIntentV1 }],
        0 < p.amount_minor := by
      intro p hp
      rcases List.mem_append.mp hp with h | h
      · exact hpis p h
      · have hpeq := List.mem_singleton.mp h
        rw [hpeq]
        exact hamt
    by_cases hlink : req.create_link = true
    · rw [if_pos hlink]
      exact ⟨hnd1, hnd2, hnn, hnew⟩
    · rw [if_neg hlink]
      exact ⟨hnd1, hnd2, hnn, hnew⟩

/-- `confirm_pi` preserves the well-formed-state invariant. -/
theorem invV1_confirm_pi (s : StateV1) (piId : String) (req : ConfirmRequest)
    (txId : String) (hInv : InvV1 s) : InvV1 (confirm_pi s piId req txId).1 := by
  obtain ⟨hnd1, hnd2, hnn, hpis⟩ := hInv
  cases hpi : s.payment_intents.find? (fun p => p.id == piId) with
  | none =>
    have heq : confirm_pi s piId req txId = (s, .piNotFound) := by
      unfold confirm_pi
      rw [hpi]
    rw [heq]
    exact ⟨hnd1, hnd2, hnn, hpis⟩
  | some pi =>
    by_cases hterm : (pi.status == "CAPTURED" || pi.status == "CANCELED") = true
    · have heq : confirm_pi s piId req txId = (s, .alreadyTerminal pi.status) := by
        unfold confirm_pi
        rw [hpi]
        dsimp only
        rw [if_pos hterm]
      rw [heq]
      exact ⟨hnd1, hnd2, hnn, hpis⟩
    · cases hcard : findCardJoinedV1 s req with
      | none =>
        have heq : confirm_pi s piId req txId =
            ({ s with payment_intents := setPIStatusV1 s.payment_intents piId "FAILED" },
             .cardDeclined) := by
          unfold confirm_pi
          rw [hpi]
          dsimp only
          rw [if_neg hterm]
          rw [hcard]
        rw [heq]
        exact ⟨hnd1, hnd2, hnn, setPIStatusV1_amount_pos _ _ _ hpis⟩
      | some ca =>
        obtain ⟨card, acc⟩ := ca
        cases hbr : s.accounts.find? (fun a => a.account_no == acc.account_no) with
        | none =>
          have heq : confirm_pi s piId req txId = (s, .crash) := by
            unfold confirm_pi
            rw [hpi]
            dsimp only
            rw [if_neg hterm]
            rw [hcard]
            dsimp only
            rw [hbr]
          rw [heq]
          exact ⟨hnd1, hnd2, hnn, hpis⟩
        | some balRow =>
          by_cases hbal : balRow.balance_minor < pi.amount_minor
          · have heq : confirm_pi s piId req txId =
                ({ s with payment_intents := setPIStatusV1 s.payment_intents piId "FAILED" },
                 .insufficientFunds) := by
              unfold confirm_pi
              rw [hpi]
              dsimp only
              rw [if_neg hterm]
              rw [hcard]
              dsimp only
              rw [hbr]
              dsimp only
              rw [if_pos hbal]
            rw [heq]
            exact ⟨hnd1, hnd2, hnn, setPIStatusV1_amount_pos _ _ _ hpis⟩
          · have heq : confirm_pi s piId req txId =
                ({ s with
                    accounts :=
                      updateBalV1 (fun a => a.account_no)
                        (updateBalV1 (fun a => a.account_no) s.accounts
                          (-pi.amount_minor) acc.account_no)
                        pi.amount_minor pi.account_no,
                    card_txs := s.card_txs ++
                      [{ id := txId, txType := "CARD_PAYMENT", currency := pi.currency,
                         amount_minor := pi.amount_minor,
                         from_account_no := acc.account_no,
                         to_account_no := pi.account_no, status := "POSTED",
                         message := none }],
                    payment_intents := setPIStatusV1 s.payment_intents piId "CAPTURED" },
                 .captured txId) := by
              unfold confirm_pi
              rw [hpi]
              dsimp only
              rw [if_neg hterm]
              rw [hcard]
              dsimp only
              rw [hbr]
              dsimp only
              rw [if_neg hbal]
            rw [heq]
            refine ⟨?_, ?_, ?_, setPIStatusV1_amount_pos _ _ _ hpis⟩
            · rw [map_key_updateBalV1 (fun a => a.account_no) (fun a => a.id) _ _ _
                    (fun a b => rfl),
                  map_key_updateBalV1 (fun a => a.account_no) (fun a => a.id) _ _ _
                    (fun a b => rfl)]
              exact hnd1
            · rw [map_key_updateBalV1 (fun a => a.account_no) (fun a => a.account_no)
                    _ _ _ (fun a b => rfl),
                  map_key_updateBalV1 (fun a => a.account_no) (fun a => a.account_no)
                    _ _ _ (fun a b => rfl)]
              exact hnd2
            · have hpimem : pi ∈ s.payment_intents := List.mem_of_find?_eq_some hpi
              have hamt : 0 < pi.amount_minor := hpis pi hpimem
              have hbrmem : balRow ∈ s.accounts := List.mem_of_find?_eq_some hbr
              have hbrno : balRow.account_no = acc.account_no :=
                eq_of_beq (by simpa using List.find?_some hbr)
              rw [← hbrno]
              exact updateBal_twice_nonneg (fun a => a.account_no) s.accounts
                pi.amount_minor balRow pi.account_no (fun a b => rfl) hnd2 hbrmem
                (by omega) (by omega) hnn

/-- `create_qr` preserves the well-formed-state invariant (it only
appends a paylink). -/
theorem invV1_create_qr (s : StateV1) (req : QRRequest) (linkId slug : String)
    (hInv : InvV1 s) : InvV1 (create_qr s req linkId slug).1 := by
  obtain ⟨hnd1, hnd2, hnn, hpis⟩ := hInv
  exact ⟨hnd1, hnd2, hnn, hpis⟩

/-- `demo_confirm` preserves the well-formed-state invariant. -/
theorem invV1_demo_confirm (s : StateV1) (slug : String) (req : ConfirmRequest)
    (txId : String) (hInv : InvV1 s) : InvV1 (demo_confirm s slug req txId).1 := by
  unfold demo_confirm
  cases hl : s.paylinks.find? (fun l => l.slug == slug) with
  | none => exact hInv
  | some link =>
    dsimp only
    cases hpid : link.payment_intent_id with
    | none => exact hInv
    | some piId => exact invV1_confirm_pi s piId req txId hInv

/-- Every core operation with a positive request amount preserves the
well-formed-state invariant. -/
theorem invV1_applyOp (s : StateV1) (op : OpV1) (hInv : InvV1 s)
    (hop : opAmountPos op) : InvV1 (applyOpV1 s op) := by
  cases op with
  | transferOp req txId => exact invV1_transferRun s req txId hInv hop
  | createPIOp req piId linkId slug =>
    exact invV1_create_pi s req piId linkId slug hInv hop
  | confirmOp piId req txId => exact invV1_confirm_pi s piId req txId hInv
  | createQROp req linkId slug => exact invV1_create_qr s req linkId slug hInv
  | demoConfirmOp slug req txId => exact invV1_demo_confirm s slug req txId hInv

/-- Claim C3, as frozen, is false on the code: from a committed state in
which every balance is ≥ 0, a single `transfer` call with
`amount_minor = -100` (which no validation rejects: the schema puts no
bound on the amount and the balance check `0 < -100` does not fire) is
accepted as POSTED and leaves the destination account at balance `-100`
in the committed state. -/
theorem C3_counterexample :
    c3state.accounts.all (fun a => decide (0 ≤ a.balance_minor)) = true ∧
    (transferRun c3state c3req "t1").2 = TransferOutcome.posted "t1" ∧
    balanceOfV1 (runOpsV1 c3state [OpV1.transferOp c3req "t1"]) "ACC-B"
      = some (-100) ∧
    ((runOpsV1 c3state [OpV1.transferOp c3req "t1"]).accounts.all
      (fun a => decide (0 ≤ a.balance_minor))) = false := by
  decide

/-- Claim C3 (amended): in every committed state reachable by the core
operations of `src/app/main.py` (transfer, create intent, confirm
intent, issue paylink/QR, confirm-via-paylink) from a well-formed state
— balances ≥ 0, stored intent amounts > 0, and the database's key
uniqueness on accounts — every account balance stays ≥ 0, PROVIDED every
transfer and create-intent request carries a positive amount; the
frozen claim's "for every input including amounts ≤ 0" clause is exactly
what fails (see the counterexample). -/
theorem C3_nonneg_reachable (s : StateV1) (ops : List OpV1)
    (hInv : InvV1 s) (hops : ∀ op ∈ ops, opAmountPos op) :
    ∀ a ∈ (runOpsV1 s ops).accounts, 0 ≤ a.balance_minor := by
  induction ops generalizing s with
  | nil => exact hInv.2.2.1
  | cons op rest ih =>
    have h1 := invV1_applyOp s op hInv (hops op (by simp))
    exact ih (applyOpV1 s op) h1 (fun o ho => hops o (by simp [ho]))

/-- Witness for the amended C3: a concrete three-operation run (transfer,
card confirm, paylink issue) from a well-formed state keeps every
balance non-negative. -/
theorem C3_nonneg_reachable_witness :
    ((runOpsV1 w3state w3ops).accounts.all
      (fun a => decide (0 ≤ a.balance_minor))) = true := by
  have h := C3_nonneg_reachable w3state w3ops (by decide) (by decide)
  rw [List.all_eq_true]
  intro a ha
  simpa using h a ha
